import Mathlib

/-!
Verification of RLGymPPO_CPP (fork Nutelladroid/RLGymPPO_CPP).

Shallow embedding of the checkpoint/orchestrator logic of `Learner.cpp`
(two variants are present in the repository; they are distinguished below as
the `V0` and `V1` variants), the PPO optimizer metric logic of
`src/PPO/PPOLearner.cpp`, and the per-game accumulator logic of
`GameInst.cpp`.  C++ `float`/`double` values are modelled as `ℚ`, machine
integers as `Int`/`Nat` (no arithmetic here approaches 64-bit overflow),
fallible operations as `Except`/`Option`.
-/

/-- Numeric value of a string of decimal digit characters, most significant
first (the accumulation a C `strtoll` loop performs). -/
def digitsVal (ds : List Char) : Nat :=
  ds.foldl (fun a c => a * 10 + (c.toNat - 48)) 0

/-- Model of `std::stoll` applied to a checkpoint folder name
(`Learner.cpp`, both variants, inside `Learner::Save` and `Learner::Load`):
skip leading spaces, read an optional sign, then at least one decimal digit;
trailing non-digit characters are ignored (`stoll` only throws when no digit
can be read, which the callers catch and ignore).  Returns `none` exactly when
the C++ call throws. -/
def stollOpt (s : String) : Option Int :=
  let cs := s.data.dropWhile (fun c => c = ' ')
  match cs with
  | '-' :: rest =>
      let ds := rest.takeWhile Char.isDigit
      if ds.isEmpty then none else some (-(digitsVal ds : Int))
  | '+' :: rest =>
      let ds := rest.takeWhile Char.isDigit
      if ds.isEmpty then none else some (digitsVal ds : Int)
  | _ =>
      let ds := cs.takeWhile Char.isDigit
      if ds.isEmpty then none else some (digitsVal ds : Int)

/-- The fold performed by `Learner::Load` (V1 lines 224-235, V0 lines 161-172)
over the subdirectory names of the load folder: keep the highest
`stoll`-parsed value, starting from the sentinel `-1`; entries whose names
fail to parse are skipped by the `catch (...) {}`. -/
def highestCheckpoint (dirs : List String) : Int :=
  dirs.foldl
    (fun highest name =>
      match stollOpt name with
      | some nameVal => max nameVal highest
      | none => highest)
    (-1)

/-- Checkpoint selection of `Learner::Load`: if the fold result is still `-1`,
loading is skipped and a fresh model is started (`"No checkpoints found,
starting new model"`); otherwise the subfolder named by the fold result is
loaded. -/
def selectedCheckpoint (dirs : List String) : Option Int :=
  let highest := highestCheckpoint dirs
  if highest = -1 then none else some highest

/-- `std::filesystem::create_directories` on the new checkpoint folder
(`Learner::Save`): adds the directory name if not already present. -/
def createDir (name : String) (dirs : List String) : List String :=
  if name ∈ dirs then dirs else dirs ++ [name]

/-- The `numCheckpoints` counter of `Learner::Save` (V1 lines 191-203): one
per directory entry whose name `stoll`-parses. -/
def numNumericCheckpoints (dirs : List String) : Nat :=
  dirs.foldl
    (fun n name =>
      match stollOpt name with
      | some _ => n + 1
      | none => n)
    0

/-- The `lowestCheckpointTS` accumulator of `Learner::Save` (V1 lines
191-203): running minimum of the `stoll`-parsed entry names, starting from
`INT64_MAX`. -/
def lowestCheckpointTS (dirs : List String) : Int :=
  dirs.foldl
    (fun lowest name =>
      match stollOpt name with
      | some nameVal => min nameVal lowest
      | none => lowest)
    (2 ^ 63 - 1)

/-- `Learner::Save` (V1 lines 178-216), at the level of the set of checkpoint
directory names, instantiated for the default configuration in which
`checkpointLoadFolder` and `checkpointSaveFolder` name the same directory
(the code creates the new checkpoint under the save folder, then scans and
prunes the load folder; `LearnerConfig` defaults both to `"checkpoints"`).
`removeFails` models `std::filesystem::remove_all` throwing; the catch turns
that into the fatal `RG_ERR_CLOSE`, modelled as `Except.error`.  A successful
`remove_all` removes the directory literally named by the decimal rendering
of `lowestCheckpointTS`. -/
def learnerSave (checkpointsToKeep : Int) (totalTimesteps : Nat)
    (removeFails : Bool) (dirs : List String) : Except String (List String) :=
  let dirs1 := createDir (toString totalTimesteps) dirs
  if checkpointsToKeep = -1 then .ok dirs1
  else
    if (numNumericCheckpoints dirs1 : Int) > checkpointsToKeep then
      if removeFails then .error "Failed to remove old checkpoint"
      else .ok (dirs1.filter (fun name => name ≠ toString (lowestCheckpointTS dirs1)))
    else .ok dirs1

/-- The four fields of `WelfordRunningStat` that `Learner::SaveStats` /
`Learner::LoadStats` persist (spec §3, RunningStatistics). -/
structure WelfordRunningStat where
  runningMean : List ℚ
  runningVariance : List ℚ
  shape : List Nat
  count : Nat
deriving DecidableEq

/-- Modelled from the spec: the `WelfordRunningStat(shape)` constructor called
at `Learner::LoadStats` (V1 line 165) lives in a utility header that is not
under `src/`; per spec §3 a RunningStatistics for a given shape starts as a
zeroed single-pass accumulator of that shape.  `LoadStats` immediately
overwrites its mean, variance and count. -/
def WelfordRunningStat.ofShape (shape : List Nat) : WelfordRunningStat :=
  { runningMean := shape.map (fun _ => 0)
    runningVariance := shape.map (fun _ => 0)
    shape := shape
    count := 0 }

/-- The Learner state persisted by `Learner::SaveStats` and restored by
`Learner::LoadStats`. -/
structure LearnerStatsState where
  totalTimesteps : Nat
  cumulativeModelUpdates : Int
  totalEpochs : Int
  returnStats : WelfordRunningStat
deriving DecidableEq

/-- The JSON object written to `RUNNING_STATS.json` by `Learner::SaveStats`
(V1 lines 107-146): a field-for-field image of the persisted state
(JSON serialization of the numbers is modelled as exact). -/
structure StatsFile where
  cumulative_timesteps : Nat
  cumulative_model_updates : Int
  epoch : Int
  mean : List ℚ
  var : List ℚ
  shape : List Nat
  count : Nat
deriving DecidableEq

/-- `Learner::SaveStats` (V1 lines 107-146, V0 lines 91-113): build the JSON
object from the current state. -/
def saveStats (s : LearnerStatsState) : StatsFile :=
  { cumulative_timesteps := s.totalTimesteps
    cumulative_model_updates := s.cumulativeModelUpdates
    epoch := s.totalEpochs
    mean := s.returnStats.runningMean
    var := s.returnStats.runningVariance
    shape := s.returnStats.shape
    count := s.returnStats.count }

/-- `Learner::LoadStats` (V1 lines 148-173, V0 lines 115-137): overwrite the
counters from the parsed JSON, rebuild `returnStats` from the file's shape,
then overwrite its mean, variance and count from the file. -/
def loadStats (_s : LearnerStatsState) (f : StatsFile) : LearnerStatsState :=
  { totalTimesteps := f.cumulative_timesteps
    cumulativeModelUpdates := f.cumulative_model_updates
    totalEpochs := f.epoch
    returnStats :=
      { WelfordRunningStat.ofShape f.shape with
          runningMean := f.mean
          runningVariance := f.var
          count := f.count } }

/-- Stats-level effect of the V1 `Learner::Load` (lines 218-246) once a
checkpoint has been selected: `LoadStats` is called on the checkpoint's stats
file (line 240).  Result: (new in-memory state, stats file left on disk). -/
def loadCheckpointStatsV1 (s : LearnerStatsState) (f : StatsFile) :
    LearnerStatsState × StatsFile :=
  (loadStats s f, f)

/-- Stats-level effect of the V0 `Learner::Load` (lines 155-183) once a
checkpoint has been selected: line 177 calls
`SaveStats(loadFolder / STATS_FILE_NAME)`, writing the current in-memory
state over the checkpoint's stats file; `LoadStats` is never called and the
in-memory state is unchanged.  Result: (new in-memory state, stats file left
on disk). -/
def loadCheckpointStatsV0 (s : LearnerStatsState) (_f : StatsFile) :
    LearnerStatsState × StatsFile :=
  (s, saveStats s)

/-- A serialized `torch::nn::Sequential` weights file, abstracted to what
`TorchLoadSaveSeq` (PPOLearner.cpp 214-254) observes of it: whether
`torch::load` can deserialize it, and the parameter-count signature (the list
of `numel()` of every parameter, in order, as computed by `GetSeqSizes`,
PPOLearner.cpp 204-212) the sequential holds after a successful load. -/
structure SeqFile where
  deserOk : Bool
  sizes : List Nat
deriving DecidableEq

/-- The three fatal error classes of the checkpoint-load path of
`PPOLearner` (each one reaches `RG_ERR_CLOSE`). -/
inductive LoadError where
  | missingFile : String → LoadError
  | archMismatch : List Nat → List Nat → LoadError
  | parseFailure : String → LoadError
deriving DecidableEq

/-- The message each fatal load error reports (abbreviated from the
`RG_ERR_CLOSE` texts at PPOLearner.cpp 224-227, 234-247, 269, 284-289). -/
def loadErrorMessage : LoadError → String
  | .missingFile name => "PPOLearner: Failed to find file " ++ name
  | .archMismatch _ _ => "Saved model has different size than current model, cannot load model"
  | .parseFailure what => "Failed to load, checkpoint may be corrupt: " ++ what

/-- `TorchLoadSaveSeq` in load mode (PPOLearner.cpp 215-248): `torch::load`
throwing is fatal (`parseFailure`); on success the sequential's parameters
become the file's, and `GetSeqSizes` after the load differing from
`GetSeqSizes` before is fatal (`archMismatch`, carrying the current then the
saved signature). -/
def TorchLoadSaveSeqLoad (sizesBefore : List Nat) (file : SeqFile) :
    Except LoadError (List Nat) :=
  if file.deserOk = false then
    .error (.parseFailure "model")
  else
    let sizesAfter := file.sizes
    if sizesBefore ≠ sizesAfter then .error (.archMismatch sizesBefore sizesAfter)
    else .ok sizesAfter

/-- A checkpoint folder as `TorchLoadSaveAll` (PPOLearner.cpp 256-299) reads
it: the four files of `FILE_NAMES`, each possibly missing; the optimizer
state files are abstracted to whether their `InputArchive::load_from` /
`Optimizer::load` succeeds. -/
structure CheckpointFolder where
  policyFile : Option SeqFile
  valueNetFile : Option SeqFile
  policyOptDeserOk : Option Bool
  valueOptDeserOk : Option Bool
deriving DecidableEq

/-- `TorchLoadSaveAll` in load mode (PPOLearner.cpp 266-289): first checks
that all four files exist (in `FILE_NAMES` order, fatal `missingFile` on the
first absent one), then loads the policy and value sequentials through
`TorchLoadSaveSeq`, then loads the two optimizer archives inside a try block
whose catch is fatal (`parseFailure`).  On success, returns the
parameter-count signatures the two networks hold afterwards. -/
def TorchLoadSaveAllLoad (policySizes valueSizes : List Nat)
    (f : CheckpointFolder) : Except LoadError (List Nat × List Nat) :=
  match f.policyFile with
  | none => .error (.missingFile "PPO_POLICY.lt")
  | some pf =>
    match f.valueNetFile with
    | none => .error (.missingFile "PPO_VALUE_NET.lt")
    | some vf =>
      match f.policyOptDeserOk with
      | none => .error (.missingFile "PPO_POLICY_OPTIMIZER.lt")
      | some po =>
        match f.valueOptDeserOk with
        | none => .error (.missingFile "PPO_VALUE_NET_OPTIMIZER.lt")
        | some vo =>
          match TorchLoadSaveSeqLoad policySizes pf with
          | .error e => .error e
          | .ok p =>
            match TorchLoadSaveSeqLoad valueSizes vf with
            | .error e => .error e
            | .ok v =>
              if po = false then .error (.parseFailure "optimizers")
              else if vo = false then .error (.parseFailure "optimizers")
              else .ok (p, v)

/-- `LearnerDeviceType` (Learner.h, embedded at the tail of the V1 source
file). -/
inductive LearnerDeviceType where
  | AUTO
  | CPU
  | GPU_CUDA
deriving DecidableEq

/-- A torch device, as far as the constructor's device logic distinguishes
them. -/
inductive TorchDevice where
  | cpu
  | cuda
deriving DecidableEq

/-- The torch runtime as observed by `Learner::Learner`: whether
`torch::cuda::is_available()` reports true, and whether moving a tensor to a
given device and back succeeds (throws otherwise). -/
structure TorchEnv where
  cudaAvailable : Bool
  transferOk : TorchDevice → Bool

/-- The device the constructor's test tensor is round-tripped to
(`t = t.to(device); t = t.cpu();`, V1 lines 44-46, V0 lines 38-40): the
member `device` is initialized to `at::kCPU` in the constructor initializer
list (V1 line 10, V0 line 9) and is reassigned to `at::kCUDA` only after the
test (V1 line 57, V0 line 51), so the `t.to(device)` in the test targets the
CPU device. -/
def probeTargetDevice : TorchDevice := .cpu

/-- Device selection of `Learner::Learner` (V1 lines 34-61, V0 lines 28-55):
if CUDA is requested, or auto-selected with CUDA available, run the tensor
round-trip test and then fail fatally when CUDA is unavailable or the test
threw; otherwise use the CPU.  `Except.error` models `RG_ERR_CLOSE`. -/
def learnerConstructDevice (ty : LearnerDeviceType) (env : TorchEnv) :
    Except String TorchDevice :=
  if (ty == .GPU_CUDA) || (ty == .AUTO && env.cudaAvailable) then
    let deviceTestFailed := !env.transferOk probeTargetDevice
    if !env.cudaAvailable || deviceTestFailed then
      .error "Learner::Learner(): cannot use CUDA GPU"
    else
      .ok .cuda
  else
    .ok .cpu

/-- Events of the learning phase of one `Learner::Learn` iteration, as far as
collection gating is concerned. -/
inductive LearnEvent where
  | disableCollection
  | enableCollection
  | lockAllAgents
  | unlockAllAgents
  | ppoLearn
deriving DecidableEq

/-- Event trace of the learning phase in the V1 `Learner::Learn` (lines
330-352): `blockAgentInferDuringLearn = !device.is_cpu()`; when set, the
manager-wide `disableCollection` flag is raised before `ppo->Learn` and
cleared after it returns. -/
def learnPhaseEventsFlag (deviceIsCpu : Bool) : List LearnEvent :=
  (if !deviceIsCpu then [.disableCollection] else []) ++
  [.ppoLearn] ++
  (if !deviceIsCpu then [.enableCollection] else [])

/-- Event trace of the learning phase in the V0 `Learner::Learn` (lines
265-287): when not on CPU, every agent's `inferenceMutex` is locked before
`ppo->Learn` and unlocked after it returns. -/
def learnPhaseEventsLock (deviceIsCpu : Bool) : List LearnEvent :=
  (if !deviceIsCpu then [.lockAllAgents] else []) ++
  [.ppoLearn] ++
  (if !deviceIsCpu then [.unlockAllAgents] else [])

/-- The SB3 clip-fraction indicator for one ratio (PPOLearner.cpp line 128):
`(abs(ratio - 1) > clipRange)` cast to float. -/
def clipIndicator (clipRange ratio : ℚ) : ℚ :=
  if |ratio - 1| > clipRange then 1 else 0

/-- `mean((abs(ratio - 1) > config.clipRange).to(kFloat))` over one minibatch
of ratios (PPOLearner.cpp line 128). -/
def clipFraction (clipRange : ℚ) (ratios : List ℚ) : ℚ :=
  (ratios.map (clipIndicator clipRange)).sum / (ratios.length : ℚ)

/-- Modelled from the spec: the `AvgTracker` running-average accumulator used
by `GameInst` (`avgEpRew`, `avgEpLen`, `avgStepRew`) lives in a utility
header that is not under `src/`; per spec §4.1 it folds samples into a
manager-wide running average, i.e. it keeps a running total and a sample
count.  `add` is the two-argument `Add(value, count)` form used at
GameInst.cpp (`avgStepRew.Add(totalRew, match->playerAmount)`); `addOne`
is the single-sample fold used by `operator+=`. -/
structure AvgTracker where
  total : ℚ
  count : Nat
deriving DecidableEq

def AvgTracker.add (t : AvgTracker) (value : ℚ) (count : Nat) : AvgTracker :=
  { total := t.total + value, count := t.count + count }

def AvgTracker.addOne (t : AvgTracker) (value : ℚ) : AvgTracker :=
  t.add value 1

/-- The mutable per-game state of `GameInst` touched by `GameInst::Step`. -/
structure GameInstState where
  curEpRew : ℚ
  curEPLen : Nat
  avgEpRew : AvgTracker
  avgEpLen : AvgTracker
  avgStepRew : AvgTracker
  totalSteps : Nat
deriving DecidableEq

/-- `GameInst::Step` (GameInst.cpp), state part: sum the per-player rewards
of the step result, fold them into `avgStepRew` and the per-episode reward
accumulator, count the step into the per-episode length accumulator, and, when
the step result's `done` flag is set, fold both per-episode accumulators into
the running episode averages and reset them to zero.  The inference/step
callback and observation plumbing are external and not modelled. -/
def gameInstStep (playerAmount : Nat) (rewards : List ℚ) (done : Bool)
    (s : GameInstState) : GameInstState :=
  let totalRew := rewards.sum
  let s1 := { s with
    avgStepRew := s.avgStepRew.add totalRew playerAmount
    curEpRew := s.curEpRew + totalRew / (playerAmount : ℚ) }
  let s2 := { s1 with curEPLen := s1.curEPLen + 1 }
  let s3 :=
    if done then
      { s2 with
        avgEpRew := s2.avgEpRew.addOne s2.curEpRew
        avgEpLen := s2.avgEpLen.addOne (s2.curEPLen : ℚ)
        curEpRew := 0
        curEPLen := 0 }
    else s2
  { s3 with totalSteps := s3.totalSteps + 1 }

/-- The accumulators `PPOLearner::Learn` holds when the epoch/batch loops
finish (PPOLearner.cpp 44-51 initialize them; 141-144 and 129 accumulate;
the `mean*` fields hold the running sums before the divisions at 161-163). -/
structure LearnAccum where
  numIterations : Nat
  numMinibatchIterations : Nat
  meanEntropySum : ℚ
  meanDivergenceSum : ℚ
  meanValLossSum : ℚ
  clipFractions : List ℚ
  totalTime : ℚ
deriving DecidableEq

/-- The reported means derived from the accumulators. -/
structure LearnMetrics where
  clampedIterations : Nat
  clampedMinibatchIterations : Nat
  meanEntropy : ℚ
  meanDivergence : ℚ
  meanValLoss : ℚ
  meanClip : ℚ
  batchConsumptionTime : ℚ
deriving DecidableEq

/-- Metric finalization of `PPOLearner::Learn` (PPOLearner.cpp 157-170 and
187): `numIterations = RS_MAX(numIterations, 1)` and
`numMinibatchIterations = RS_MAX(numMinibatchIterations, 1)` before any
division; the clip-fraction mean is computed only when `clipFractions` is
non-empty and reported as 0 otherwise; `"PPO Batch Consumption Time"` divides
by the clamped iteration count. -/
def finalizeLearnMetrics (a : LearnAccum) : LearnMetrics :=
  let numIterations := max a.numIterations 1
  let numMinibatchIterations := max a.numMinibatchIterations 1
  let meanClip : ℚ :=
    if a.clipFractions.isEmpty then 0
    else a.clipFractions.sum / (a.clipFractions.length : ℚ)
  { clampedIterations := numIterations
    clampedMinibatchIterations := numMinibatchIterations
    meanEntropy := a.meanEntropySum / (numMinibatchIterations : ℚ)
    meanDivergence := a.meanDivergenceSum / (numMinibatchIterations : ℚ)
    meanValLoss := a.meanValLossSum / (numMinibatchIterations : ℚ)
    meanClip := meanClip
    batchConsumptionTime := a.totalTime / (numIterations : ℚ) }

/-- The `batchSizeRatio` local of `PPOLearner::Learn` (PPOLearner.cpp line
57): `float batchSizeRatio = config.miniBatchSize / config.batchSize;`.
`PPOLearnerConfig.h` is not under `src/`, but both fields must be of integer
type: `config.batchSize` appears in a braced initializer list for a tensor
shape (`view({ config.batchSize, -1 })`, line 72), where a floating-point
type would be an ill-formed narrowing conversion, and both fields drive the
integer minibatch loop (lines 76-80, `int stop = start +
config.miniBatchSize`).  Hence the division is C++ integer division
(truncation toward zero, `Int.tdiv`), and only its quotient is converted to
`float`. -/
def batchSizeScale (miniBatchSize batchSize : Int) : ℚ :=
  ((Int.tdiv miniBatchSize batchSize : Int) : ℚ)

/-- The combined loss passed to backprop (PPOLearner.cpp line 116):
`auto ppoLoss = (policyLoss - entropy * config.entCoef) * batchSizeRatio;`. -/
def ppoLossOfMinibatch (policyLoss entropy entCoef : ℚ)
    (miniBatchSize batchSize : Int) : ℚ :=
  (policyLoss - entropy * entCoef) * batchSizeScale miniBatchSize batchSize

/-- Modelled from the spec: the combined-loss formula of spec §4.4,
`(policyLoss − entropyCoef·entropy) · (miniBatchSize / batchSize)`, with the
ratio read as the exact rational quotient (the scaling is there so that
minibatch gradients accumulate additively across a full batch). -/
def specCombinedLoss (policyLoss entropy entCoef : ℚ)
    (miniBatchSize batchSize : Int) : ℚ :=
  (policyLoss - entCoef * entropy) * ((miniBatchSize : ℚ) / (batchSize : ℚ))

/-- The stats state a checkpoint was saved from, in the concrete failing
scenario for the save-then-resume round trip. -/
def statsStateSaved : LearnerStatsState := ⟨5, 3, 7, ⟨[1/2], [2], [1], 4⟩⟩

/-- The fresh stats state of a newly constructed Learner that resumes from
the checkpoint saved out of `statsStateSaved`. -/
def statsStateFresh : LearnerStatsState := ⟨0, 0, 0, ⟨[0], [0], [1], 0⟩⟩

deriving instance DecidableEq for Except

theorem foldl_max_init_le (l : List Int) (a : Int) : a ≤ l.foldl max a := by
  induction l generalizing a with
  | nil => exact le_refl a
  | cons x t ih => exact le_trans (le_max_left a x) (ih (max a x))

theorem foldl_max_le_mem (l : List Int) (a b : Int) (h : b ∈ l) :
    b ≤ l.foldl max a := by
  induction l generalizing a with
  | nil => cases h
  | cons x t ih =>
    rcases List.mem_cons.mp h with rfl | hb
    · exact le_trans (le_max_right a b) (foldl_max_init_le t (max a b))
    · exact ih (max a x) hb

theorem foldl_max_mem_or (l : List Int) (a : Int) :
    l.foldl max a = a ∨ l.foldl max a ∈ l := by
  induction l generalizing a with
  | nil => exact Or.inl rfl
  | cons x t ih =>
    rcases ih (max a x) with h | h
    · rcases max_choice a x with hc | hc
      · exact Or.inl (by rw [List.foldl_cons, h, hc])
      · exact Or.inr (by rw [List.foldl_cons, h, hc]; exact List.mem_cons_self x t)
    · exact Or.inr (List.mem_cons_of_mem x h)

theorem foldl_max_le (l : List Int) (a c : Int) (ha : a ≤ c)
    (h : ∀ b ∈ l, b ≤ c) : l.foldl max a ≤ c := by
  induction l generalizing a with
  | nil => exact ha
  | cons x t ih =>
    exact ih (max a x) (max_le ha (h x (List.mem_cons_self x t)))
      (fun b hb => h b (List.mem_cons_of_mem x hb))

theorem foldl_min_le_init (l : List Int) (a : Int) : l.foldl min a ≤ a := by
  induction l generalizing a with
  | nil => exact le_refl a
  | cons x t ih => exact le_trans (ih (min a x)) (min_le_left a x)

theorem foldl_min_le_mem (l : List Int) (a b : Int) (h : b ∈ l) :
    l.foldl min a ≤ b := by
  induction l generalizing a with
  | nil => cases h
  | cons x t ih =>
    rcases List.mem_cons.mp h with rfl | hb
    · exact le_trans (foldl_min_le_init t (min a b)) (min_le_right a b)
    · exact ih (min a x) hb

theorem highestCheckpoint_eq_foldl (dirs : List String) :
    highestCheckpoint dirs = (dirs.filterMap stollOpt).foldl max (-1) := by
  show dirs.foldl _ (-1) = _
  generalize (-1 : Int) = a
  induction dirs generalizing a with
  | nil => rfl
  | cons d t ih =>
    cases h : stollOpt d with
    | none => simp [List.foldl_cons, h, List.filterMap_cons, ih]
    | some v =>
      simp only [List.foldl_cons, List.filterMap_cons, h]
      rw [max_comm v a]
      exact ih (max a v)

theorem lowestCheckpointTS_eq_foldl (dirs : List String) :
    lowestCheckpointTS dirs = (dirs.filterMap stollOpt).foldl min (2 ^ 63 - 1) := by
  show dirs.foldl _ _ = _
  generalize (2 ^ 63 - 1 : Int) = a
  induction dirs generalizing a with
  | nil => rfl
  | cons d t ih =>
    cases h : stollOpt d with
    | none => simp [List.foldl_cons, h, List.filterMap_cons, ih]
    | some v =>
      simp only [List.foldl_cons, List.filterMap_cons, h]
      rw [min_comm v a]
      exact ih (min a v)

theorem sum_map_clipIndicator (e : ℚ) (rs : List ℚ) :
    (rs.map (clipIndicator e)).sum
      = ((rs.filter fun r => decide (|r - 1| > e)).length : ℚ) := by
  induction rs with
  | nil => simp
  | cons r t ih =>
    by_cases h : |r - 1| > e
    · simp [clipIndicator, h, List.filter_cons, ih]
      ring
    · simp [clipIndicator, h, List.filter_cons, ih]

theorem torchLoadSeq_ok (sb : List Nat) (file : SeqFile) (p : List Nat)
    (h : TorchLoadSaveSeqLoad sb file = .ok p) : p = sb := by
  by_cases h1 : file.deserOk = false
  · simp [TorchLoadSaveSeqLoad, h1] at h
  · by_cases h2 : sb ≠ file.sizes
    · simp [TorchLoadSaveSeqLoad, h1, h2] at h
    · push_neg at h2
      simp [TorchLoadSaveSeqLoad, h1, h2] at h
      rw [← h, h2]

/-- Claim C1: the combined loss passed to backprop is claimed to equal
(policyLoss − entropyCoef·entropy)·(miniBatchSize/batchSize) whenever
miniBatchSize divides batchSize, including miniBatchSize < batchSize.  On the
code this fails: line 57 divides the two integer config fields with C++
integer division before converting to float, so at miniBatchSize = 2,
batchSize = 4 (which divides) the scale is 0 and the backprop loss is 0,
while the spec formula gives (1 − 0)·(1/2) = 1/2. -/
theorem c1_minibatch_scale_integer_division :
    (2 : Int) ∣ 4 ∧ (2 : Int) < 4 ∧
    batchSizeScale 2 4 = 0 ∧
    ppoLossOfMinibatch 1 0 (1/200) 2 4 = 0 ∧
    specCombinedLoss 1 0 (1/200) 2 4 = 1/2 ∧
    (∀ m b : Int, 0 ≤ m → m < b → batchSizeScale m b = 0) := by
  have htd : Int.tdiv 2 4 = 0 := by decide
  refine ⟨⟨2, by norm_num⟩, by norm_num, by norm_num [batchSizeScale, htd],
    by norm_num [ppoLossOfMinibatch, batchSizeScale, htd], by norm_num [specCombinedLoss], ?_⟩
  intro m b hm hb
  have h0 : Int.tdiv m b = 0 := Int.tdiv_eq_zero_of_lt hm hb
  simp [batchSizeScale, h0]

theorem c1_minibatch_scale_integer_division_witness :
    batchSizeScale 3 9 = 0 :=
  c1_minibatch_scale_integer_division.2.2.2.2.2 3 9 (by norm_num) (by norm_num)

/-- Claim C2: saving the stats file and then resuming through the
orchestrator's load path is claimed to be an identity on the
RunningStatistics state and the timestep/update/epoch counters.  The V1 load
path satisfies this (first conjunct, for every state): LoadStats applied to
the file SaveStats wrote restores the state exactly.  The V0 load path (also
cited by the claim) breaks it: line 177 of the V0 file calls SaveStats where
LoadStats is intended, so resuming a fresh Learner from the checkpoint of
`statsStateSaved` leaves the fresh state in memory and overwrites the
checkpoint's stats file with it (remaining conjuncts evaluate the code at
that failing input). -/
theorem c2_stats_roundtrip :
    (∀ s s0 : LearnerStatsState,
       loadCheckpointStatsV1 s0 (saveStats s) = (s, saveStats s)) ∧
    (loadCheckpointStatsV0 statsStateFresh (saveStats statsStateSaved)).1
      = statsStateFresh ∧
    statsStateFresh ≠ statsStateSaved ∧
    (loadCheckpointStatsV0 statsStateFresh (saveStats statsStateSaved)).2
      = saveStats statsStateFresh ∧
    saveStats statsStateFresh ≠ saveStats statsStateSaved := by
  refine ⟨?_, rfl, by decide, rfl, by decide⟩
  intro s s0
  cases s with
  | mk t c e rs => cases rs; rfl

/-- Claim C3: on every save with a finite retention count, if the number of
numerically-named checkpoint subdirectories after the save exceeds the
retention count, the lowest-numbered checkpoint directory is deleted, and a
failed deletion is fatal; with checkpointsToKeep = 2, three sequential saves
at timesteps 100, 200, 300 leave exactly the directories 200 and 300
(the two most recent). -/
theorem c3_checkpoint_retention :
    (∀ (keep : Int) (ts : Nat) (dirs : List String),
      keep ≠ -1 →
      (numNumericCheckpoints (createDir (toString ts) dirs) : Int) > keep →
      learnerSave keep ts true dirs = .error "Failed to remove old checkpoint" ∧
      learnerSave keep ts false dirs =
        .ok ((createDir (toString ts) dirs).filter
          (fun name =>
            name ≠ toString (lowestCheckpointTS (createDir (toString ts) dirs)))) ∧
      toString (lowestCheckpointTS (createDir (toString ts) dirs)) ∉
        (createDir (toString ts) dirs).filter
          (fun name =>
            name ≠ toString (lowestCheckpointTS (createDir (toString ts) dirs))) ∧
      (∀ v ∈ (createDir (toString ts) dirs).filterMap stollOpt,
        lowestCheckpointTS (createDir (toString ts) dirs) ≤ v)) ∧
    learnerSave 2 100 false [] = .ok ["100"] ∧
    learnerSave 2 200 false ["100"] = .ok ["100", "200"] ∧
    learnerSave 2 300 false ["100", "200"] = .ok ["200", "300"] := by
  refine ⟨?_, by decide, by decide, by decide⟩
  intro keep ts dirs hk hn
  refine ⟨?_, ?_, ?_, ?_⟩
  · simp [learnerSave, hk, hn]
  · simp [learnerSave, hk, hn]
  · simp [List.mem_filter]
  · intro v hv
    rw [lowestCheckpointTS_eq_foldl]
    exact foldl_min_le_mem _ _ _ hv

theorem c3_checkpoint_retention_witness :
    learnerSave 1 5 true ["1", "2"] = .error "Failed to remove old checkpoint" :=
  (c3_checkpoint_retention.1 1 5 ["1", "2"] (by decide) (by decide)).1

/-- Claim C4 counterexample: a load folder whose only subdirectory is named
"-5" does contain a subdirectory parsing to an integer (its numerically
highest parsed value is -5), yet Learner::Load treats the folder as holding
no checkpoint, because its fold starts from the sentinel -1 and
max(-5, -1) = -1: loading is skipped and a fresh model is started instead of
selecting "-5". -/
theorem c4_negative_checkpoint_counterexample :
    stollOpt "-5" = some (-5) ∧ selectedCheckpoint ["-5"] = none := by
  exact ⟨by decide, by decide⟩

/-- Claim C4 (amended): the resume operation selects the subdirectory whose
name parses (by the leading-integer stoll parse) to the numerically highest
value among all parsing names, provided that value is greater than -1;
subdirectories whose names do not parse are ignored; if no subdirectory
parses to a value greater than -1 (in particular if no numeric subdirectory
exists at all), loading is skipped and a fresh model is started. -/
theorem c4_highest_checkpoint_selection (dirs : List String) :
    (highestCheckpoint dirs = (dirs.filterMap stollOpt).foldl max (-1)) ∧
    (∀ v, selectedCheckpoint dirs = some v →
       v ∈ dirs.filterMap stollOpt ∧
       (∀ w ∈ dirs.filterMap stollOpt, w ≤ v) ∧ -1 < v) ∧
    (selectedCheckpoint dirs = none ↔ ∀ w ∈ dirs.filterMap stollOpt, w ≤ -1) := by
  refine ⟨highestCheckpoint_eq_foldl dirs, ?_, ?_⟩
  · intro v hv
    by_cases hd : highestCheckpoint dirs = -1
    · simp [selectedCheckpoint, hd] at hv
    · simp only [selectedCheckpoint, if_neg hd] at hv
      obtain rfl : highestCheckpoint dirs = v := by injection hv
      rw [highestCheckpoint_eq_foldl] at hd ⊢
      refine ⟨?_, ?_, ?_⟩
      · rcases foldl_max_mem_or (dirs.filterMap stollOpt) (-1) with h | h
        · exact absurd h hd
        · exact h
      · intro w hw
        exact foldl_max_le_mem _ _ _ hw
      · exact lt_of_le_of_ne (foldl_max_init_le _ _) (Ne.symm hd)
  · constructor
    · intro hnone w hw
      have hd : highestCheckpoint dirs = -1 := by
        by_cases hd : highestCheckpoint dirs = -1
        · exact hd
        · simp [selectedCheckpoint, hd] at hnone
      rw [highestCheckpoint_eq_foldl] at hd
      exact hd ▸ foldl_max_le_mem _ _ _ hw
    · intro hall
      have hle : (dirs.filterMap stollOpt).foldl max (-1) ≤ -1 :=
        foldl_max_le _ _ _ (le_refl _) hall
      have hge : (-1 : Int) ≤ (dirs.filterMap stollOpt).foldl max (-1) :=
        foldl_max_init_le _ _
      have hd : highestCheckpoint dirs = -1 := by
        rw [highestCheckpoint_eq_foldl]
        exact le_antisymm hle hge
      simp [selectedCheckpoint, hd]

theorem c4_highest_checkpoint_selection_witness :
    selectedCheckpoint ["alpha", "-5"] = none :=
  (c4_highest_checkpoint_selection ["alpha", "-5"]).2.2.mpr (by decide)

/-- Claim C5: loading a checkpoint is never a silent partial load — a
successful TorchLoadSaveAll load leaves both networks with exactly the
current architecture's parameter-count signatures — and the three fatal
classes are distinguished: a missing file reports missingFile (for the first
absent file in FILE_NAMES order), a torch::load deserialization failure
reports parseFailure, and a parameter-count signature differing from the
current network reports archMismatch carrying both signatures; the reported
messages of the three classes are pairwise distinct. -/
theorem c5_load_error_taxonomy :
    (∀ (ps vs : List Nat) (f : CheckpointFolder) (r : List Nat × List Nat),
       TorchLoadSaveAllLoad ps vs f = .ok r → r = (ps, vs)) ∧
    (∀ (ps vs : List Nat) (f : CheckpointFolder), f.policyFile = none →
       TorchLoadSaveAllLoad ps vs f = .error (.missingFile "PPO_POLICY.lt")) ∧
    (∀ (ps vs : List Nat) (pf vf : SeqFile) (po vo : Bool),
       pf.deserOk = false →
       TorchLoadSaveAllLoad ps vs ⟨some pf, some vf, some po, some vo⟩
         = .error (.parseFailure "model")) ∧
    (∀ (ps vs : List Nat) (pf vf : SeqFile) (po vo : Bool),
       pf.deserOk = true → ps ≠ pf.sizes →
       TorchLoadSaveAllLoad ps vs ⟨some pf, some vf, some po, some vo⟩
         = .error (.archMismatch ps pf.sizes)) ∧
    loadErrorMessage (.missingFile "PPO_POLICY.lt")
      ≠ loadErrorMessage (.archMismatch [1] [2]) ∧
    loadErrorMessage (.missingFile "PPO_POLICY.lt")
      ≠ loadErrorMessage (.parseFailure "model") ∧
    loadErrorMessage (.archMismatch [1] [2])
      ≠ loadErrorMessage (.parseFailure "model") := by
  refine ⟨?_, ?_, ?_, ?_, by decide, by decide, by decide⟩
  · intro ps vs f r h
    obtain ⟨pfo, vfo, poo, voo⟩ := f
    cases pfo with
    | none => simp [TorchLoadSaveAllLoad] at h
    | some pf =>
      cases vfo with
      | none => simp [TorchLoadSaveAllLoad] at h
      | some vf =>
        cases poo with
        | none => simp [TorchLoadSaveAllLoad] at h
        | some po =>
          cases voo with
          | none => simp [TorchLoadSaveAllLoad] at h
          | some vo =>
            simp only [TorchLoadSaveAllLoad] at h
            cases hp : TorchLoadSaveSeqLoad ps pf with
            | error e => simp [hp] at h
            | ok p =>
              cases hv : TorchLoadSaveSeqLoad vs vf with
              | error e => simp [hp, hv] at h
              | ok v =>
                by_cases hpo : po = false
                · simp [hp, hv, hpo] at h
                · by_cases hvo : vo = false
                  · simp [hp, hv, hpo, hvo] at h
                  · simp [hp, hv, hpo, hvo] at h
                    rw [← h, torchLoadSeq_ok ps pf p hp, torchLoadSeq_ok vs vf v hv]
  · intro ps vs f hf
    obtain ⟨pfo, vfo, poo, voo⟩ := f
    cases hf
    rfl
  · intro ps vs pf vf po vo hdeser
    simp [TorchLoadSaveAllLoad, TorchLoadSaveSeqLoad, hdeser]
  · intro ps vs pf vf po vo hdeser hne
    simp [TorchLoadSaveAllLoad, TorchLoadSaveSeqLoad, hdeser, hne]

theorem c5_load_error_taxonomy_witness :
    TorchLoadSaveAllLoad [3] [4] ⟨none, none, none, none⟩
      = .error (.missingFile "PPO_POLICY.lt") :=
  c5_load_error_taxonomy.2.1 [3] [4] ⟨none, none, none, none⟩ rfl

/-- Claim C6: the claim says the constructor's capability probe round-trips
a tensor to the requested (CUDA) device.  In the code the member `device`
still holds kCPU when the probe runs (kCUDA is assigned only after it), so
the probe round-trips to the CPU: an environment whose CUDA transfers all
fail but whose CPU transfers work passes construction with the CUDA device
(third conjunct), i.e. the probe never exercises CUDA.  The fatal-on-
unavailable half of the claim does hold: CUDA requested but unavailable, or
a probe that does throw, is a fatal error and never a silent CPU fallback
(fourth and fifth conjuncts). -/
theorem c6_device_probe_targets_cpu :
    probeTargetDevice = .cpu ∧
    probeTargetDevice ≠ .cuda ∧
    learnerConstructDevice .GPU_CUDA
      { cudaAvailable := true, transferOk := fun d => d == .cpu } = .ok .cuda ∧
    learnerConstructDevice .GPU_CUDA
      { cudaAvailable := false, transferOk := fun _ => true }
      = .error "Learner::Learner(): cannot use CUDA GPU" ∧
    learnerConstructDevice .GPU_CUDA
      { cudaAvailable := true, transferOk := fun _ => false }
      = .error "Learner::Learner(): cannot use CUDA GPU" := by
  exact ⟨rfl, by decide, by decide, by decide, by decide⟩

/-- Claim C7: in the learning phase of one training-loop iteration, when the
device is not the CPU the collection gate (the disableCollection flag in the
V1 variant, the acquisition of every agent's inference lock in the V0
variant) is engaged before the optimizer pass and released only after it,
while on a CPU device no gating event occurs and collection continues during
learning. -/
theorem c7_collection_paused_during_learn :
    learnPhaseEventsFlag false
      = [.disableCollection, .ppoLearn, .enableCollection] ∧
    learnPhaseEventsFlag true = [.ppoLearn] ∧
    learnPhaseEventsLock false
      = [.lockAllAgents, .ppoLearn, .unlockAllAgents] ∧
    learnPhaseEventsLock true = [.ppoLearn] := by
  exact ⟨rfl, rfl, rfl, rfl⟩

/-- Claim C8: the reported clip fraction is the mean of the strict indicator
|ratio − 1| > ε over the minibatch: it equals the number of ratios strictly
outside [1−ε, 1+ε] divided by the minibatch size; a ratio exactly at 1+ε or
1−ε contributes 0, a ratio with |ratio − 1| ≤ ε contributes 0, and exactly
the ratios with |ratio − 1| > ε contribute 1. -/
theorem c8_clip_fraction_strict (e : ℚ) (rs : List ℚ) (he : 0 ≤ e) :
    clipFraction e rs
      = ((rs.filter fun r => decide (|r - 1| > e)).length : ℚ) / (rs.length : ℚ) ∧
    clipIndicator e (1 + e) = 0 ∧
    clipIndicator e (1 - e) = 0 ∧
    (∀ r, |r - 1| > e → clipIndicator e r = 1) ∧
    (∀ r, |r - 1| ≤ e → clipIndicator e r = 0) := by
  refine ⟨?_, ?_, ?_, ?_, ?_⟩
  · rw [clipFraction, sum_map_clipIndicator]
  · simp [clipIndicator, abs_of_nonneg he]
  · have h1 : (1 : ℚ) - e - 1 = -e := by ring
    simp [clipIndicator, h1, abs_neg, abs_of_nonneg he]
  · intro r h
    simp [clipIndicator, h]
  · intro r h
    simp [clipIndicator, not_lt_of_le h]

theorem c8_clip_fraction_strict_witness :
    clipFraction (1/5) [1, 6/5, 4/5, 2, 0] = 2/5 ∧
    clipIndicator (1/5) (1 + 1/5) = 0 := by
  have h := c8_clip_fraction_strict (1/5) [1, 6/5, 4/5, 2, 0] (by norm_num)
  refine ⟨?_, (c8_clip_fraction_strict (1/5) [] (by norm_num)).2.1⟩
  rw [h.1]
  norm_num [List.filter, abs]

/-- Claim C9: on every simulation step the per-episode reward and length
accumulators are incremented (by the mean per-player reward and by one
respectively); exactly when the step result's done flag is set, their
incremented values are folded into the running episode-reward and
episode-length averages and both accumulators are reset to zero; on a
non-done step the running averages are unchanged.  The step counter always
advances. -/
theorem c9_episode_accumulators (playerAmount : Nat) (rewards : List ℚ)
    (done : Bool) (s : GameInstState) :
    (done = false →
      (gameInstStep playerAmount rewards done s).curEpRew
          = s.curEpRew + rewards.sum / (playerAmount : ℚ) ∧
      (gameInstStep playerAmount rewards done s).curEPLen = s.curEPLen + 1 ∧
      (gameInstStep playerAmount rewards done s).avgEpRew = s.avgEpRew ∧
      (gameInstStep playerAmount rewards done s).avgEpLen = s.avgEpLen) ∧
    (done = true →
      (gameInstStep playerAmount rewards done s).avgEpRew
          = s.avgEpRew.addOne (s.curEpRew + rewards.sum / (playerAmount : ℚ)) ∧
      (gameInstStep playerAmount rewards done s).avgEpLen
          = s.avgEpLen.addOne ((s.curEPLen : ℚ) + 1) ∧
      (gameInstStep playerAmount rewards done s).curEpRew = 0 ∧
      (gameInstStep playerAmount rewards done s).curEPLen = 0) ∧
    (gameInstStep playerAmount rewards done s).avgStepRew
        = s.avgStepRew.add rewards.sum playerAmount ∧
    (gameInstStep playerAmount rewards done s).totalSteps = s.totalSteps + 1 := by
  refine ⟨?_, ?_, ?_, ?_⟩
  · rintro rfl
    exact ⟨rfl, rfl, rfl, rfl⟩
  · rintro rfl
    refine ⟨rfl, ?_, rfl, rfl⟩
    show s.avgEpLen.addOne ((s.curEPLen + 1 : Nat) : ℚ) = _
    push_cast
    rfl
  · cases done <;> rfl
  · cases done <;> rfl

theorem c9_episode_accumulators_witness :
    (gameInstStep 2 [3, 5] true ⟨1, 4, ⟨0, 0⟩, ⟨0, 0⟩, ⟨0, 0⟩, 9⟩).curEpRew = 0 :=
  ((c9_episode_accumulators 2 [3, 5] true ⟨1, 4, ⟨0, 0⟩, ⟨0, 0⟩, ⟨0, 0⟩, 9⟩).2.1 rfl).2.2.1

/-- Claim C10: the metric finalization of PPOLearner::Learn never divides by
zero: both iteration counts are clamped to at least one before any division
(so their rational casts are nonzero), the clip-fraction mean is computed
only from a non-empty list (whose length cast is then nonzero) and reported
as zero otherwise, and an optimization pass that produced no batches reports
all-zero means. -/
theorem c10_safe_metric_divisions (a : LearnAccum) :
    1 ≤ (finalizeLearnMetrics a).clampedIterations ∧
    1 ≤ (finalizeLearnMetrics a).clampedMinibatchIterations ∧
    ((finalizeLearnMetrics a).clampedIterations : ℚ) ≠ 0 ∧
    ((finalizeLearnMetrics a).clampedMinibatchIterations : ℚ) ≠ 0 ∧
    (a.clipFractions = [] → (finalizeLearnMetrics a).meanClip = 0) ∧
    (a.clipFractions ≠ [] →
      ((a.clipFractions.length : ℚ) ≠ 0 ∧
       (finalizeLearnMetrics a).meanClip
         = a.clipFractions.sum / (a.clipFractions.length : ℚ))) ∧
    finalizeLearnMetrics ⟨0, 0, 0, 0, 0, [], 0⟩ = ⟨1, 1, 0, 0, 0, 0, 0⟩ := by
  refine ⟨le_max_right _ _, le_max_right _ _, ?_, ?_, ?_, ?_, ?_⟩
  · have h : 1 ≤ (finalizeLearnMetrics a).clampedIterations := le_max_right _ _
    have h0 : (finalizeLearnMetrics a).clampedIterations ≠ 0 := by omega
    exact_mod_cast h0
  · have h : 1 ≤ (finalizeLearnMetrics a).clampedMinibatchIterations := le_max_right _ _
    have h0 : (finalizeLearnMetrics a).clampedMinibatchIterations ≠ 0 := by omega
    exact_mod_cast h0
  · intro hempty
    simp [finalizeLearnMetrics, hempty]
  · intro hne
    have hlen : a.clipFractions.length ≠ 0 := by
      simpa [List.length_eq_zero] using hne
    constructor
    · exact_mod_cast hlen
    · simp [finalizeLearnMetrics, List.isEmpty_iff, hne]
  · norm_num [finalizeLearnMetrics]

theorem c10_safe_metric_divisions_witness :
    (finalizeLearnMetrics ⟨0, 0, 0, 0, 0, [], 0⟩).meanClip = 0 :=
  (c10_safe_metric_divisions ⟨0, 0, 0, 0, 0, [], 0⟩).2.2.2.2.1 rfl
